import Mathlib

set_option linter.unusedVariables false

/-!
Shallow embedding of the HTTP handlers in `src/handlers/handlers.go`
(package `handlers` of pedersandvoll/golang-api).

The relational store is modelled as an explicit `DB` value holding the three
tables the handlers touch (`users`, `organizations`, `organizationsettings`).
Each handler becomes a pure function from the parsed request body, the values
the middleware placed in the fiber context (`c.Locals`), and the current `DB`
to the new `DB` and the final HTTP response.  A fiber context can be written
several times; the response the client sees is the last write, which is what
each function returns.  Store failures that the handlers branch on are
injected through explicit boolean fault parameters (`orgInsertFails`,
`settingsInsertFails`, `execFails`, `signFails`); when a fault flag is false
the corresponding statement succeeds, mirroring a healthy store.

Signed JWT credentials are identified with their decoded claims
(`IssuedClaims`): the codec is an external collaborator with
`Decode (Sign c) = c`, so nothing is lost by carrying the claims directly in
the success response.
-/

/-- Claims carried by a credential issued by `RefreshToken` or `LoginUser`:
`username`, `userid`, `exp` (unix seconds) and the optional `activeorg`
entry of the `jwt.MapClaims` map (absent when `none`). -/
structure IssuedClaims where
  username : String
  userid : String
  exp : Int
  activeorg : Option String
deriving DecidableEq, Repr

/-- A JSON value appearing in a response body: a string, an integer, or a
signed credential (identified with its claims). -/
inductive JVal where
  | s : String → JVal
  | n : Int → JVal
  | tok : IssuedClaims → JVal
deriving DecidableEq, Repr

/-- An HTTP response: status code plus JSON object body (a key/value list;
`c.SendStatus` produces an empty body). -/
structure Resp where
  status : Nat
  body : List (String × JVal)
deriving DecidableEq, Repr

/-- Builds the `c.Status(st).JSON(fiber.Map{"error": msg})` response. -/
def errResp (st : Nat) (msg : String) : Resp :=
  { status := st, body := [("error", JVal.s msg)] }

/-- Builds the `c.JSON(fiber.Map{"token": t})` success response (status 200). -/
def tokenResp (c : IssuedClaims) : Resp :=
  { status := 200, body := [("token", JVal.tok c)] }

/-- A row of the `users` table: `userid`, unique `username`, password hash,
nullable `activeorg`. -/
structure UserRow where
  userid : String
  username : String
  password : String
  activeorg : Option String
deriving DecidableEq, Repr

/-- A row of the `organizations` table: `orgid`, `name`, `orgowner`, and the
store generated `orgsecret`. -/
structure OrgRow where
  orgid : String
  name : String
  orgowner : String
  orgsecret : String
deriving DecidableEq, Repr

/-- A row of the `organizationsettings` table. -/
structure OrgSettingsRow where
  orgid : String
  orgowner : String
  maxlobbies : Option Int
  maxgamesperseason : Option Int
  team1color : Option String
  team2color : Option String
deriving DecidableEq, Repr

/-- The relational store state seen by the handlers. -/
structure DB where
  users : List UserRow
  orgs : List OrgRow
  orgsettings : List OrgSettingsRow
deriving DecidableEq, Repr

/-- A value read back from `jwt.MapClaims` (Go `interface\x7b\x7d`): JSON
null, a string, or a number; `EditOrgSettings` distinguishes all three. -/
inductive ClaimValue where
  | vnull : ClaimValue
  | vstr : String → ClaimValue
  | vnum : Int → ClaimValue
deriving DecidableEq, Repr

/-- Handler `RefreshToken` (handlers.go lines 29-50): rebuilds the claims map
from `c.Locals` with a fresh `exp = now+24h`, adding `activeorg` only when the
local exists, is a string (`.(string)` assertion with ok flag) and is
non-empty.  `activeOrgLocal = none` covers both an absent local and a
non-string one; `signFails` injects a `token.SignedString` failure
(`c.SendStatus(500)`, empty body). -/
def RefreshToken (username userid : String) (activeOrgLocal : Option String)
    (now : Int) (signFails : Bool) : Resp :=
  let claims : IssuedClaims :=
    { username := username, userid := userid, exp := now + 86400
      activeorg :=
        match activeOrgLocal with
        | some s => if s ≠ "" then some s else none
        | none => none }
  if signFails then { status := 500, body := [] }
  else tokenResp claims

/-- Helper `getUserByUsername` (handlers.go lines 92-108): single-row SELECT
on `users` by username; `none` models `sql.ErrNoRows`. -/
def getUserByUsername (db : DB) (username : String) : Option UserRow :=
  db.users.find? (fun u => u.username == username)

/-- Handler `LoginUser` (handlers.go lines 157-207).  `verify` is the external
`utils.VerifyPassword` collaborator.  Claims are built from the resolved row;
`activeorg` is added exactly when the stored `ActiveOrg` pointer is non-nil
(the Go code checks `!= nil` only, copying the pointed-to string verbatim). -/
def LoginUser (db : DB) (verify : String → String → Bool)
    (username password : String) (now : Int) (signFails : Bool) : Resp :=
  if username = "" ∨ password = "" then
    errResp 400 "Username and password are required"
  else
    match getUserByUsername db username with
    | none => errResp 401 "User or password are wrong"
    | some userExist =>
      if verify password userExist.password then
        if signFails then { status := 500, body := [] }
        else tokenResp
          { username := userExist.username, userid := userExist.userid
            exp := now + 86400, activeorg := userExist.activeorg }
      else errResp 401 "User or password are wrong"

/-- Handler `CreateOrganization` (handlers.go lines 213-257).  Two separate
statements with no surrounding transaction: the `organizations` INSERT has
committed before the `organizationsettings` INSERT runs, so when the latter
fails the organization row is already persisted.  `newOrgID` / `newOrgSecret`
stand for the store-generated values returned by `RETURNING`. -/
def CreateOrganization (db : DB) (name userID newOrgID newOrgSecret : String)
    (orgInsertFails settingsInsertFails : Bool) : DB × Resp :=
  if name = "" then (db, errResp 400 "Name and orgsecret is required")
  else if orgInsertFails then (db, errResp 500 "Failed to create org")
  else
    let db1 : DB := { db with orgs := db.orgs ++
      [{ orgid := newOrgID, name := name, orgowner := userID, orgsecret := newOrgSecret }] }
    if settingsInsertFails then (db1, errResp 500 "Failed to create org settings")
    else
      ({ db1 with orgsettings := db1.orgsettings ++
        [{ orgid := newOrgID, orgowner := userID, maxlobbies := none
           maxgamesperseason := none, team1color := none, team2color := none }] },
       { status := 201, body := [("message", JVal.s "Org created successfully"),
          ("orgid", JVal.s newOrgID), ("orgsecret", JVal.s newOrgSecret)] })

/-- Helper `getOrgBySecret` (handlers.go lines 259-272): resolves a secret to
an `orgid`.  When the SELECT scan fails (no row matched), the Go code writes a
500 response `"No org with that secret"` to the context and returns the result
of `c.JSON` as its error value — which is nil on a successful response write —
together with the zero string.  The returned pair is (orgid, response written
here, if any); the Go error value is nil in both cases. -/
def getOrgBySecret (db : DB) (orgsecret : String) : String × Option Resp :=
  match db.orgs.find? (fun o => o.orgsecret == orgsecret) with
  | some o => (o.orgid, none)
  | none => ("", some (errResp 500 "No org with that secret"))

/-- Effect of `UPDATE users SET activeorg = orgID WHERE userid = userID` on
one row. -/
def setActiveOrg (userID orgID : String) (u : UserRow) : UserRow :=
  if u.userid == userID then { u with activeorg := some orgID } else u

/-- Modelled from the spec: the store schema (migrations are not part of the
handlers file) declares `users.activeorg` a nullable foreign key into
`organizations`, and cross-row invariants are enforced by the store's
constraint guarantees — an UPDATE that points `activeorg` at a value
referencing no organization row fails. -/
def activeOrgFkOk (db : DB) (orgID : String) : Bool :=
  db.orgs.any (fun o => o.orgid == orgID)

/-- Handler `JoinOrg` (handlers.go lines 278-315).  Because `getOrgBySecret`
returns a nil Go error even when no organization matched (its error value is
the result of `c.JSON`), the `err != nil` branch in `JoinOrg` never fires and
control always continues with the returned orgid — the empty string in the
no-match case — overwriting any response `getOrgBySecret` wrote.  `execFails`
injects a store failure of the UPDATE; the UPDATE also fails when the foreign
key on `activeorg` is violated (`activeOrgFkOk`). -/
def JoinOrg (db : DB) (orgsecret userID : String) (execFails : Bool) : DB × Resp :=
  if orgsecret = "" then (db, errResp 400 "Org secret is required")
  else
    let orgID := (getOrgBySecret db orgsecret).1
    if execFails || !(activeOrgFkOk db orgID) then
      (db, errResp 500 "Failed to create org settings")
    else
      ({ db with users := db.users.map (setActiveOrg userID orgID) },
       { status := 201, body := [("message", JVal.s "Added user to organization")] })

/-- The parsed request body of `EditOrgSettings` (Go struct `OrgSettings`,
handlers.go lines 317-323): every field is a pointer, `none` meaning absent
from the patch. -/
structure OrgSettings where
  orgOwner : Option Int
  maxLobbies : Option Int
  maxGamesPerSeason : Option Int
  team1Color : Option String
  team2Color : Option String
deriving DecidableEq, Repr

/-- Effect on one `organizationsettings` row of executing the UPDATE statement
`EditOrgSettings` builds (handlers.go lines 353-386): each column named by a
present patch field is set to the supplied value, every other column is left
untouched.  `orgowner` is bound to the dereferenced `*int`, which the store
stores in the owner column (rendered via `toString` over our string ids). -/
def applyOrgSettingsUpdate (body : OrgSettings) (r : OrgSettingsRow) : OrgSettingsRow :=
  { r with
    orgowner := match body.orgOwner with | some v => toString v | none => r.orgowner
    maxlobbies := match body.maxLobbies with | some v => some v | none => r.maxlobbies
    maxgamesperseason := match body.maxGamesPerSeason with | some v => some v | none => r.maxgamesperseason
    team1color := match body.team1Color with | some v => some v | none => r.team1color
    team2color := match body.team2Color with | some v => some v | none => r.team2color }

/-- Handler `EditOrgSettings` (handlers.go lines 325-398).  The empty-patch
validation (line 333) tests only `OrgOwner`, `MaxLobbies` and
`MaxGamesPerSeason`.  The `activeorg` claim is then read from the verified
token: absent or JSON-null yields 500 `"User not part of any org"`, a
non-string value yields 500 `"Invalid activeorg format"`, and any string —
including the empty string — is used as the `WHERE orgid =` key of the
UPDATE.  `execFails` injects a store failure of the UPDATE. -/
def EditOrgSettings (db : DB) (body : OrgSettings)
    (activeorgClaim : Option ClaimValue) (execFails : Bool) : DB × Resp :=
  if body.orgOwner = none ∧ body.maxLobbies = none ∧ body.maxGamesPerSeason = none then
    (db, errResp 400 "At least one option must be passed in")
  else
    match activeorgClaim with
    | none => (db, errResp 500 "User not part of any org")
    | some ClaimValue.vnull => (db, errResp 500 "User not part of any org")
    | some (ClaimValue.vnum _) => (db, errResp 500 "Invalid activeorg format")
    | some (ClaimValue.vstr activeOrgStr) =>
      if execFails then (db, errResp 500 "Failed to update organization settings")
      else
        ({ db with orgsettings := (db.orgsettings.map
            (fun r => if r.orgid == activeOrgStr then applyOrgSettingsUpdate body r else r)) },
         { status := 200, body := [("message", JVal.s "Organization settings updated successfully")] })

/-! Sample store states and patches used by concrete counterexamples and
witnesses. -/

/-- A sample store: one user "alice" (id "1"), member of organization "7"
("Acme", join secret "S7"), which has its settings row. -/
def db0 : DB :=
  { users := [{ userid := "1", username := "alice", password := "pw", activeorg := some "7" }]
    orgs := [{ orgid := "7", name := "Acme", orgowner := "1", orgsecret := "S7" }]
    orgsettings := [{ orgid := "7", orgowner := "1", maxlobbies := none
                      maxgamesperseason := none, team1color := some "blue"
                      team2color := some "red" }] }

/-- The patch that sets only `maxLobbies` (to 5). -/
def mlPatch : OrgSettings :=
  { orgOwner := none, maxLobbies := some 5, maxGamesPerSeason := none
    team1Color := none, team2Color := none }

/-- The patch that sets only `team1Color` (to "red"). -/
def onlyTeam1 : OrgSettings :=
  { orgOwner := none, maxLobbies := none, maxGamesPerSeason := none
    team1Color := some "red", team2Color := none }

/-- C1: contrary to the claim, `CreateOrganization` is not atomic.  When the
settings insert fails right after the organization insert succeeded, the call
does fail with InternalError (500 "Failed to create org settings"), but the
freshly inserted organization row persists in the store. -/
theorem C1_partial_creation_persists :
    (CreateOrganization db0 "Beta" "1" "8" "S8" false true).2
      = errResp 500 "Failed to create org settings" ∧
    ({ orgid := "8", name := "Beta", orgowner := "1", orgsecret := "S8" } : OrgRow)
      ∈ (CreateOrganization db0 "Beta" "1" "8" "S8" false true).1.orgs := by
  constructor
  · rfl
  · decide

/-- C2 counterexample: the patch containing only `team1Color` — so at least
one patch field is present — is nevertheless rejected as an empty patch with
the 400 ValidationError response. -/
theorem C2_counterexample :
    onlyTeam1.team1Color = some "red" ∧
    (EditOrgSettings db0 onlyTeam1 (some (ClaimValue.vstr "7")) false).2
      = errResp 400 "At least one option must be passed in" := by
  constructor
  · rfl
  · rfl

/-- C2 (amended): `EditOrgSettings` fails with the empty-patch
ValidationError (400 "At least one option must be passed in") if and only if
`orgOwner`, `maxLobbies` and `maxGamesPerSeason` are all absent; the two
colour fields do not count towards patch non-emptiness. -/
theorem C2_validation_iff_first_three_absent (db : DB) (body : OrgSettings)
    (a : Option ClaimValue) (ef : Bool) :
    (EditOrgSettings db body a ef).2 = errResp 400 "At least one option must be passed in" ↔
    (body.orgOwner = none ∧ body.maxLobbies = none ∧ body.maxGamesPerSeason = none) := by
  unfold EditOrgSettings
  by_cases h : body.orgOwner = none ∧ body.maxLobbies = none ∧ body.maxGamesPerSeason = none
  · simp [h]
  · rw [if_neg h]
    constructor
    · intro hresp
      exfalso
      rcases a with _ | cv
      · simp [errResp] at hresp
      · rcases cv with _ | s | n
        · simp [errResp] at hresp
        · cases ef
          · simp [errResp] at hresp
          · simp [errResp] at hresp
        · simp [errResp] at hresp
    · intro hh
      exact absurd hh h

/-- C3 counterexample: an `activeorg` claim that is present but is the empty
string — hence not a non-empty activeorg — is not rejected: the call reports
success (200) and the update is executed keyed on the empty org id, instead
of failing with the AuthError branch. -/
theorem C3_counterexample :
    EditOrgSettings db0 mlPatch (some (ClaimValue.vstr "")) false
      = (db0, { status := 200
                body := [("message", JVal.s "Organization settings updated successfully")] }) := by
  decide

/-- C3 (amended): for every call that passes the empty-patch validation and
whose `activeorg` claim is absent or JSON-null, `EditOrgSettings` fails with
the 500 "User not part of any org" response (the spec's AuthError branch) and
performs no settings update (the store is returned unchanged); an
empty-string claim, however, is not caught by this check. -/
theorem C3_auth_absent_or_null (db : DB) (body : OrgSettings) (ef : Bool)
    (a : Option ClaimValue)
    (hne : ¬ (body.orgOwner = none ∧ body.maxLobbies = none ∧ body.maxGamesPerSeason = none))
    (ha : a = none ∨ a = some ClaimValue.vnull) :
    EditOrgSettings db body a ef = (db, errResp 500 "User not part of any org") := by
  rcases ha with h | h <;> subst h <;> simp [EditOrgSettings, hne]

/-- Witness for C3: the maxLobbies-only patch together with an absent
activeorg claim hits the AuthError branch. -/
theorem C3_auth_witness :
    EditOrgSettings db0 mlPatch none false = (db0, errResp 500 "User not part of any org") :=
  C3_auth_absent_or_null db0 mlPatch false none (by decide) (Or.inl rfl)

/-- C4: contrary to the claim, a Join whose secret matches no organization
does not fail with NotFoundError: `getOrgBySecret` writes a 500 "No org with
that secret" response but returns a nil Go error, so `JoinOrg` continues with
the empty org id; the store then rejects the dangling activeorg reference and
the final response is the InternalError 500 "Failed to create org settings".
The caller's activeOrg is left unchanged (the store is returned as it was). -/
theorem C4_unknown_secret_internal_error :
    db0.orgs.find? (fun o => o.orgsecret == "nope") = none ∧
    getOrgBySecret db0 "nope" = ("", some (errResp 500 "No org with that secret")) ∧
    JoinOrg db0 "nope" "1" false = (db0, errResp 500 "Failed to create org settings") := by
  refine ⟨rfl, rfl, ?_⟩
  decide

/-- A store whose single user has an empty-string (non-null) stored
activeorg. -/
def dbEmptyOrg : DB :=
  { users := [{ userid := "2", username := "bob", password := "pw", activeorg := some "" }]
    orgs := [], orgsettings := [] }

/-- Concrete stand-in for the external password verifier: plain equality of
the supplied password with the stored value. -/
def eqVerify : String → String → Bool := fun given stored => given == stored

/-- C5 counterexample: `LoginUser` adds the `activeorg` claim whenever the
stored pointer is non-nil, with no non-emptiness check — a user row whose
stored activeorg is the empty string yields a credential carrying
`activeorg = ""`, although the issuing context's active organization is not
non-empty. -/
theorem C5_counterexample :
    (getUserByUsername dbEmptyOrg "bob").map (fun u => u.activeorg) = some (some "") ∧
    LoginUser dbEmptyOrg eqVerify "bob" "pw" 0 false
      = tokenResp { username := "bob", userid := "2", exp := 86400, activeorg := some "" } := by
  constructor
  · rfl
  · rfl

/-- C5 (amended): in every credential issued by `RefreshToken`, the
`activeorg` claim is present iff the issuing context's active organization is
a non-empty string; in every credential issued by `LoginUser`, the
`activeorg` claim equals the resolved user's stored activeorg verbatim —
present iff the stored value is non-null, even when it is the empty
string. -/
theorem C5_activeorg_presence (un uid : String) (ao : Option String) (now : Int)
    (db : DB) (verify : String → String → Bool) (u p : String) (row : UserRow)
    (hu : u ≠ "") (hp : p ≠ "")
    (hfind : getUserByUsername db u = some row)
    (hv : verify p row.password = true) :
    (∃ c : IssuedClaims, RefreshToken un uid ao now false = tokenResp c ∧
      (c.activeorg.isSome ↔ ∃ s, ao = some s ∧ s ≠ "")) ∧
    (∃ c : IssuedClaims, LoginUser db verify u p now false = tokenResp c ∧
      c.activeorg = row.activeorg) := by
  constructor
  · rcases ao with _ | s
    · exact ⟨{ username := un, userid := uid, exp := now + 86400, activeorg := none },
        rfl, by simp⟩
    · by_cases hs : s = ""
      · subst hs
        refine ⟨{ username := un, userid := uid, exp := now + 86400, activeorg := none },
          ?_, by simp⟩
        simp [RefreshToken]
      · refine ⟨{ username := un, userid := uid, exp := now + 86400, activeorg := some s },
          ?_, by simp [hs]⟩
        simp [RefreshToken, hs]
  · refine ⟨{ username := row.username, userid := row.userid, exp := now + 86400
              activeorg := row.activeorg }, ?_, rfl⟩
    simp [LoginUser, hu, hp, hfind, hv]

/-- Witness for C5, instantiated at db0 and alice. -/
theorem C5_witness :
    (∃ c : IssuedClaims, RefreshToken "alice" "1" (some "7") 0 false = tokenResp c ∧
      (c.activeorg.isSome ↔ ∃ s, (some "7" : Option String) = some s ∧ s ≠ "")) ∧
    (∃ c : IssuedClaims, LoginUser db0 eqVerify "alice" "pw" 0 false = tokenResp c ∧
      c.activeorg = ({ userid := "1", username := "alice", password := "pw"
                       activeorg := some "7" } : UserRow).activeorg) :=
  C5_activeorg_presence "alice" "1" (some "7") 0 db0 eqVerify "alice" "pw"
    { userid := "1", username := "alice", password := "pw", activeorg := some "7" }
    (by decide) (by decide) rfl rfl

/-- C7: every credential issued by `RefreshToken` or `LoginUser` carries
`exp` equal to the issuance time plus exactly 24 hours (86400 seconds) and
carries the username and userid of the already-authenticated (resp.
resolved) user. -/
theorem C7_exp_and_identity (un uid : String) (ao : Option String) (now : Int)
    (db : DB) (verify : String → String → Bool) (u p : String) (row : UserRow)
    (hu : u ≠ "") (hp : p ≠ "")
    (hfind : getUserByUsername db u = some row)
    (hv : verify p row.password = true) :
    (∃ c : IssuedClaims, RefreshToken un uid ao now false = tokenResp c ∧
      c.exp = now + 86400 ∧ c.username = un ∧ c.userid = uid) ∧
    (∃ c : IssuedClaims, LoginUser db verify u p now false = tokenResp c ∧
      c.exp = now + 86400 ∧ c.username = row.username ∧ c.userid = row.userid) := by
  constructor
  · exact ⟨_, rfl, rfl, rfl, rfl⟩
  · refine ⟨{ username := row.username, userid := row.userid, exp := now + 86400
              activeorg := row.activeorg }, ?_, rfl, rfl, rfl⟩
    simp [LoginUser, hu, hp, hfind, hv]

/-- Witness for C7, instantiated at db0 and alice. -/
theorem C7_witness :
    (∃ c : IssuedClaims, RefreshToken "alice" "1" (some "7") 0 false = tokenResp c ∧
      c.exp = 0 + 86400 ∧ c.username = "alice" ∧ c.userid = "1") ∧
    (∃ c : IssuedClaims, LoginUser db0 eqVerify "alice" "pw" 0 false = tokenResp c ∧
      c.exp = 0 + 86400 ∧
      c.username = ({ userid := "1", username := "alice", password := "pw"
                      activeorg := some "7" } : UserRow).username ∧
      c.userid = ({ userid := "1", username := "alice", password := "pw"
                    activeorg := some "7" } : UserRow).userid) :=
  C7_exp_and_identity "alice" "1" (some "7") 0 db0 eqVerify "alice" "pw"
    { userid := "1", username := "alice", password := "pw", activeorg := some "7" }
    (by decide) (by decide) rfl rfl

/-- C8: with non-empty inputs, an unknown username and a known username with
a non-verifying password yield literally the same response — status 401 and
body "User or password are wrong" — so the two failure causes are
indistinguishable to the caller (even across different issuance times and
signing-fault states, which that branch never reaches). -/
theorem C8_login_indistinguishable (db : DB) (verify : String → String → Bool)
    (u1 p1 u2 p2 : String) (now1 now2 : Int) (sf1 sf2 : Bool) (row : UserRow)
    (hu1 : u1 ≠ "") (hp1 : p1 ≠ "") (hu2 : u2 ≠ "") (hp2 : p2 ≠ "")
    (h1 : getUserByUsername db u1 = none)
    (h2 : getUserByUsername db u2 = some row)
    (hv : verify p2 row.password = false) :
    LoginUser db verify u1 p1 now1 sf1 = LoginUser db verify u2 p2 now2 sf2 ∧
    LoginUser db verify u1 p1 now1 sf1 = errResp 401 "User or password are wrong" := by
  have e1 : LoginUser db verify u1 p1 now1 sf1 = errResp 401 "User or password are wrong" := by
    simp [LoginUser, hu1, hp1, h1]
  have e2 : LoginUser db verify u2 p2 now2 sf2 = errResp 401 "User or password are wrong" := by
    simp [LoginUser, hu2, hp2, h2, hv]
  exact ⟨e1.trans e2.symm, e1⟩

/-- Witness for C8: in db0, unknown user "carol" and known user "alice" with
the wrong password get identical responses. -/
theorem C8_witness :
    LoginUser db0 eqVerify "carol" "x" 0 false = LoginUser db0 eqVerify "alice" "bad" 5 true ∧
    LoginUser db0 eqVerify "carol" "x" 0 false = errResp 401 "User or password are wrong" :=
  C8_login_indistinguishable db0 eqVerify "carol" "x" "alice" "bad" 0 5 false true
    { userid := "1", username := "alice", password := "pw", activeorg := some "7" }
    (by decide) (by decide) (by decide) (by decide) rfl rfl rfl

/-- C6: on every successful `EditOrgSettings` call, exactly the columns whose
patch fields are present are updated, on exactly the rows keyed by the
caller's active organization; every absent field's column, every other row,
and the other two tables keep their prior values. -/
theorem C6_partial_update_frame (db : DB) (body : OrgSettings) (s : String)
    (hne : ¬ (body.orgOwner = none ∧ body.maxLobbies = none ∧ body.maxGamesPerSeason = none)) :
    (EditOrgSettings db body (some (ClaimValue.vstr s)) false).2.status = 200 ∧
    (EditOrgSettings db body (some (ClaimValue.vstr s)) false).1.users = db.users ∧
    (EditOrgSettings db body (some (ClaimValue.vstr s)) false).1.orgs = db.orgs ∧
    (EditOrgSettings db body (some (ClaimValue.vstr s)) false).1.orgsettings
      = db.orgsettings.map (fun r => if r.orgid == s then applyOrgSettingsUpdate body r else r) ∧
    (∀ r : OrgSettingsRow, r.orgid ≠ s →
      (if r.orgid == s then applyOrgSettingsUpdate body r else r) = r) ∧
    (∀ r : OrgSettingsRow,
      (applyOrgSettingsUpdate body r).orgid = r.orgid ∧
      (body.orgOwner = none → (applyOrgSettingsUpdate body r).orgowner = r.orgowner) ∧
      (∀ v, body.orgOwner = some v → (applyOrgSettingsUpdate body r).orgowner = toString v) ∧
      (body.maxLobbies = none → (applyOrgSettingsUpdate body r).maxlobbies = r.maxlobbies) ∧
      (∀ v, body.maxLobbies = some v → (applyOrgSettingsUpdate body r).maxlobbies = some v) ∧
      (body.maxGamesPerSeason = none →
        (applyOrgSettingsUpdate body r).maxgamesperseason = r.maxgamesperseason) ∧
      (∀ v, body.maxGamesPerSeason = some v →
        (applyOrgSettingsUpdate body r).maxgamesperseason = some v) ∧
      (body.team1Color = none → (applyOrgSettingsUpdate body r).team1color = r.team1color) ∧
      (∀ v, body.team1Color = some v → (applyOrgSettingsUpdate body r).team1color = some v) ∧
      (body.team2Color = none → (applyOrgSettingsUpdate body r).team2color = r.team2color) ∧
      (∀ v, body.team2Color = some v → (applyOrgSettingsUpdate body r).team2color = some v)) := by
  refine ⟨?_, ?_, ?_, ?_, ?_, ?_⟩
  · simp [EditOrgSettings, hne]
  · simp [EditOrgSettings, hne]
  · simp [EditOrgSettings, hne]
  · simp [EditOrgSettings, hne]
  · intro r hr
    simp [hr]
  · intro r
    refine ⟨rfl, ?_, ?_, ?_, ?_, ?_, ?_, ?_, ?_, ?_, ?_⟩ <;>
      first
        | (intro h; simp [applyOrgSettingsUpdate, h])
        | (intro v h; simp [applyOrgSettingsUpdate, h])

/-- Witness for C6: the maxLobbies-only patch against org "7" in db0. -/
theorem C6_witness :
    (EditOrgSettings db0 mlPatch (some (ClaimValue.vstr "7")) false).2.status = 200 ∧
    (EditOrgSettings db0 mlPatch (some (ClaimValue.vstr "7")) false).1.orgsettings
      = db0.orgsettings.map (fun r => if r.orgid == "7" then applyOrgSettingsUpdate mlPatch r else r) :=
  ⟨(C6_partial_update_frame db0 mlPatch "7" (by decide)).1,
   (C6_partial_update_frame db0 mlPatch "7" (by decide)).2.2.2.1⟩

/-- Applying the same activeorg assignment twice equals applying it once. -/
theorem setActiveOrg_idem (uid g : String) (u : UserRow) :
    setActiveOrg uid g (setActiveOrg uid g u) = setActiveOrg uid g u := by
  unfold setActiveOrg
  by_cases h : u.userid == uid <;> simp [h]

/-- An activeorg assignment sets the targeted user's activeorg. -/
theorem setActiveOrg_sets (uid g : String) (u : UserRow)
    (h : (setActiveOrg uid g u).userid = uid) :
    (setActiveOrg uid g u).activeorg = some g := by
  unfold setActiveOrg at h ⊢
  by_cases hc : u.userid == uid
  · simp [hc]
  · simp [hc] at h
    exact absurd h (by simpa using hc)

/-- C9: a Join whose secret resolves to organization `o` responds 201, sets
the caller's activeOrg to `o.orgid`, and is idempotent — repeating the same
Join succeeds with the same response and leaves the store exactly as after
the first call. -/
theorem C9_join_idempotent (db : DB) (o : OrgRow) (s uid : String)
    (hs : s ≠ "") (hfind : db.orgs.find? (fun r => r.orgsecret == s) = some o) :
    (JoinOrg db s uid false).2
      = { status := 201, body := [("message", JVal.s "Added user to organization")] } ∧
    (∀ u ∈ (JoinOrg db s uid false).1.users, u.userid = uid → u.activeorg = some o.orgid) ∧
    JoinOrg (JoinOrg db s uid false).1 s uid false
      = ((JoinOrg db s uid false).1, (JoinOrg db s uid false).2) := by
  have hmem : o ∈ db.orgs := List.mem_of_find?_eq_some hfind
  have hfk : activeOrgFkOk db o.orgid = true := by
    unfold activeOrgFkOk
    exact List.any_eq_true.mpr ⟨o, hmem, by simp⟩
  have hjoin : JoinOrg db s uid false
      = ({ db with users := db.users.map (setActiveOrg uid o.orgid) },
         { status := 201, body := [("message", JVal.s "Added user to organization")] }) := by
    simp [JoinOrg, hs, getOrgBySecret, hfind, hfk]
  have hfk2 : activeOrgFkOk { db with users := db.users.map (setActiveOrg uid o.orgid) } o.orgid = true := hfk
  have hmapidem : (db.users.map (setActiveOrg uid o.orgid)).map (setActiveOrg uid o.orgid)
      = db.users.map (setActiveOrg uid o.orgid) := by
    rw [List.map_map]
    exact List.map_congr_left (fun a ha => setActiveOrg_idem uid o.orgid a)
  refine ⟨?_, ?_, ?_⟩
  · rw [hjoin]
  · rw [hjoin]
    intro u hu hid
    rcases List.mem_map.mp hu with ⟨v, hv, rfl⟩
    exact setActiveOrg_sets uid o.orgid v hid
  · rw [hjoin]
    simp [JoinOrg, hs, getOrgBySecret, hfind, hfk2, hmapidem]

/-- Witness for C9: joining org "7" in db0 with its secret "S7". -/
theorem C9_witness :
    (JoinOrg db0 "S7" "1" false).2
      = { status := 201, body := [("message", JVal.s "Added user to organization")] } ∧
    (∀ u ∈ (JoinOrg db0 "S7" "1" false).1.users, u.userid = "1" →
      u.activeorg = some ({ orgid := "7", name := "Acme", orgowner := "1"
                            orgsecret := "S7" } : OrgRow).orgid) ∧
    JoinOrg (JoinOrg db0 "S7" "1" false).1 "S7" "1" false
      = ((JoinOrg db0 "S7" "1" false).1, (JoinOrg db0 "S7" "1" false).2) :=
  C9_join_idempotent db0 { orgid := "7", name := "Acme", orgowner := "1", orgsecret := "S7" }
    "S7" "1" (by decide) rfl

/-- Settings rows equal in every column except possibly the owner column. -/
def eqExceptOwner (r1 r2 : OrgSettingsRow) : Prop :=
  r1.orgid = r2.orgid ∧ r1.maxlobbies = r2.maxlobbies ∧
  r1.maxgamesperseason = r2.maxgamesperseason ∧
  r1.team1color = r2.team1color ∧ r1.team2color = r2.team2color

/-- The response of `EditOrgSettings` never depends on the store contents. -/
theorem editOrgSettings_resp_db_irrel (db1 db2 : DB) (body : OrgSettings)
    (a : Option ClaimValue) (ef : Bool) :
    (EditOrgSettings db1 body a ef).2 = (EditOrgSettings db2 body a ef).2 := by
  unfold EditOrgSettings
  by_cases h : body.orgOwner = none ∧ body.maxLobbies = none ∧ body.maxGamesPerSeason = none
  · simp [h]
  · rcases a with _ | cv
    · simp [h]
    · rcases cv with _ | s | n <;> cases ef <;> simp [h]

/-- C10: `EditOrgSettings` performs no ownership check: its outcome is the
same on any two stores that differ only in the owner column of the settings
rows (the stored owner is never read), and any caller whose claims carry a
string `activeorg` can set the owner column via the `orgOwner` patch field on
the rows keyed by that active organization. -/
theorem C10_no_ownership_check (db1 db2 : DB) (body : OrgSettings)
    (a : Option ClaimValue) (ef : Bool)
    (husers : db1.users = db2.users) (horgs : db1.orgs = db2.orgs)
    (hset : List.Forall₂ eqExceptOwner db1.orgsettings db2.orgsettings) :
    (EditOrgSettings db1 body a ef).2 = (EditOrgSettings db2 body a ef).2 ∧
    (∀ (db : DB) (body2 : OrgSettings) (v : Int) (s : String),
      body2.orgOwner = some v →
      (EditOrgSettings db body2 (some (ClaimValue.vstr s)) false).2.status = 200 ∧
      ∀ r ∈ (EditOrgSettings db body2 (some (ClaimValue.vstr s)) false).1.orgsettings,
        r.orgid = s → r.orgowner = toString v) := by
  constructor
  · exact editOrgSettings_resp_db_irrel db1 db2 body a ef
  · intro db body2 v s hv
    have hne : ¬ (body2.orgOwner = none ∧ body2.maxLobbies = none ∧ body2.maxGamesPerSeason = none) := by
      rw [hv]
      simp
    constructor
    · simp [EditOrgSettings, hne]
    · intro r hr hid
      simp only [EditOrgSettings, if_neg hne] at hr
      rcases List.mem_map.mp hr with ⟨w, hw, rfl⟩
      by_cases hws : w.orgid == s
      · simp only [if_pos hws, applyOrgSettingsUpdate, hv]
      · rw [if_neg hws] at hid
        exact absurd hid (by simpa using hws)

/-- A copy of db0 whose settings row carries a different owner. -/
def db0ownerX : DB :=
  { users := db0.users, orgs := db0.orgs
    orgsettings := [{ orgid := "7", orgowner := "99", maxlobbies := none
                      maxgamesperseason := none, team1color := some "blue"
                      team2color := some "red" }] }

/-- Witness for C10: the same edit against db0 and against the copy with a
different stored owner produces the same response. -/
theorem C10_witness :
    (EditOrgSettings db0 mlPatch (some (ClaimValue.vstr "7")) false).2
      = (EditOrgSettings db0ownerX mlPatch (some (ClaimValue.vstr "7")) false).2 :=
  (C10_no_ownership_check db0 db0ownerX mlPatch (some (ClaimValue.vstr "7")) false rfl rfl
    (List.Forall₂.cons ⟨rfl, rfl, rfl, rfl, rfl⟩ List.Forall₂.nil)).1
